import Mathlib

/-!
Verification development for the adventure-game repository.

It shallowly embeds the parts of the code base that the documented
properties talk about:

* the world data model and its pydantic-style structural validation,
  plus save/load and the networkx relationship graph
  (src/world_generator.py);
* the rolling event summary, the turn-processing engine, NPC response
  handling and menu selection (src/game_engine.py, src/main.py);
* the NPC attitude-update step of the Gemini story engine
  (src/gemini/story_engine.py).

Modelling conventions: parsed JSON values are an inductive type `Json`
(numbers restricted to integers, which is all this code base produces),
Python dictionaries are association lists, Python exceptions are
`Except`, and the two external effects - the LLM HTTP endpoint and
`input()` - are an explicit oracle environment consumed by call index.
`json.loads` (a standard-library call) is modelled as an abstract
parsing function supplied by the environment.  String operations model
Python semantics on the character (code point) level.
-/

/-- A parsed JSON value, as produced by `json.loads` / consumed by
`json.dump`.  Numbers are restricted to integers: the repository only
ever moves strings, lists and objects through JSON. -/
inductive Json where
  | null : Json
  | bool (b : Bool) : Json
  | num (n : Int) : Json
  | str (s : String) : Json
  | arr (elems : List Json) : Json
  | obj (fields : List (String × Json)) : Json

/-- A Python dict with string keys (association list, unique keys). -/
abbrev PyDict := List (String × Json)

/-- Key lookup in a dict.  First binding wins; Python dicts have unique
keys so this matches `d[k]` / `d.get(k)` resolution. -/
def jLookup (d : PyDict) (k : String) : Option Json :=
  match d with
  | [] => none
  | (k2, v) :: rest => if k2 = k then some v else jLookup rest k

/-- `d.get(k, dflt)` on a dict. -/
def pyGetD (d : PyDict) (k : String) (dflt : Json) : Json :=
  (jLookup d k).getD dflt

/-- Python truthiness of a JSON value (`if x:`). -/
def pyTruthy : Json → Bool
  | .null => false
  | .bool b => b
  | .num n => n != 0
  | .str s => !s.isEmpty
  | .arr xs => !xs.isEmpty
  | .obj d => !d.isEmpty

/-- f-string rendering of a value.  Container rendering is abbreviated;
it only ever feeds prompt text and log strings, never control flow. -/
def pyStr : Json → String
  | .null => "None"
  | .bool true => "True"
  | .bool false => "False"
  | .num n => toString n
  | .str s => s
  | .arr _ => "[...]"
  | .obj _ => "dict"

/-- Lower-casing, `s.lower()` (character-wise, ASCII-complete). -/
def pyLower (s : String) : String := ⟨s.data.map Char.toLower⟩

/-- Does the first list lead the second (element-wise equality)? -/
def leadsList : List Char → List Char → Bool
  | [], _ => true
  | _ :: _, [] => false
  | a :: as2, b :: bs => a == b && leadsList as2 bs

/-- Does `needle` occur contiguously in the second list? -/
def hasSubList (needle : List Char) : List Char → Bool
  | [] => needle.isEmpty
  | c :: rest => leadsList needle (c :: rest) || hasSubList needle rest

/-- Substring test, Python `needle in hay`. -/
def strContains (hay needle : String) : Bool :=
  hasSubList needle.data hay.data

/-- One step of whitespace tokenisation (right fold): a whitespace
character opens a fresh (possibly empty) token, any other character
extends the current one. -/
def tokenStep (c : Char) (acc : List (List Char)) : List (List Char) :=
  if c.isWhitespace then [] :: acc
  else
    match acc with
    | [] => [[c]]
    | t :: rest => (c :: t) :: rest

/-- `s.split()` with no separator: split on whitespace runs, dropping
empty tokens. -/
def pyTokens (s : String) : List String :=
  ((s.data.foldr tokenStep []).filter (fun t => !t.isEmpty)).map (fun t => ⟨t⟩)

/-- The last `n` characters of a string, Python `s[-n:]` (for
`len(s) > n`; code points, exactly like Python `len`/slicing). -/
def strTakeLast (s : String) (n : Nat) : String :=
  ⟨s.data.drop (s.data.length - n)⟩

/-- CPython `int(s)` on an already-stripped ASCII string: an optional
sign, then decimal digits with single underscores allowed between
digits.  Returns `none` where `int()` raises `ValueError`.  (Non-ASCII
decimal digits, which CPython also accepts, are outside the model.) -/
def noDoubleUnderscore : List Char → Bool
  | [] => true
  | [_] => true
  | a :: b :: t => !(a = '_' && b = '_') && noDoubleUnderscore (b :: t)

/-- Digit-and-underscore shape check for an unsigned int literal. -/
def intLiteralOk (l : List Char) : Bool :=
  (match l.head? with | some c => c.isDigit | none => false) &&
  (match l.getLast? with | some c => c.isDigit | none => false) &&
  l.all (fun c => c.isDigit || c = '_') &&
  noDoubleUnderscore l

/-- Value of a digit list. -/
def digitsVal (l : List Char) : Nat :=
  l.foldl (fun a c => a * 10 + (c.toNat - '0'.toNat)) 0

/-- See `intLiteralOk`; models `int(selection)` in the menu handlers. -/
def pythonParseInt (s : String) : Option Int :=
  match s.data with
  | '+' :: rest =>
      if intLiteralOk rest then some (Int.ofNat (digitsVal (rest.filter (fun c => c ≠ '_')))) else none
  | '-' :: rest =>
      if intLiteralOk rest then some (-(Int.ofNat (digitsVal (rest.filter (fun c => c ≠ '_'))))) else none
  | cs =>
      if intLiteralOk cs then some (Int.ofNat (digitsVal (cs.filter (fun c => c ≠ '_')))) else none

/-! ## World model and validation (src/world_generator.py) -/

/-- `NPCModel` (world_generator.py lines 7-11). -/
structure NPCModel where
  id : String
  name : String
  description : String
  personality : String
deriving DecidableEq

/-- `LocationPlot` (world_generator.py lines 20-24). -/
structure LocationPlot where
  title : String
  description : String
  key_npcs : List String
  status : String
deriving DecidableEq

/-- `LocationModel` (world_generator.py lines 26-34). -/
structure LocationModel where
  id : String
  name : String
  type : String
  description : String
  connected_to : List String
  primary_npcs : List String
  secondary_npcs : List String
  plot : LocationPlot
deriving DecidableEq

/-- `PlayerCharacterModel` (world_generator.py lines 37-40). -/
structure PlayerCharacterModel where
  name : String
  description : String
  personality : String
deriving DecidableEq

/-- `WorldModel` (world_generator.py lines 42-50). -/
structure WorldModel where
  world_name : String
  locations : List LocationModel
  npcs : List NPCModel
  player_character : PlayerCharacterModel
deriving DecidableEq

/-- A JSON string, or validation failure. -/
def asStr : Json → Option String
  | .str s => some s
  | _ => none

/-- Validate every element of a JSON list; `none` if any fails
(pydantic `List[...]` field validation). -/
def parseAll {α : Type} (p : Json → Option α) : List Json → Option (List α)
  | [] => some []
  | j :: rest =>
    match p j, parseAll p rest with
    | some a, some tail => some (a :: tail)
    | _, _ => none

/-- pydantic validation of `NPCModel`: required string fields, extra
keys ignored (pydantic default), no coercion of non-strings. -/
def parseNPCModel (j : Json) : Option NPCModel :=
  match j with
  | .obj d =>
    match jLookup d "id" >>= asStr, jLookup d "name" >>= asStr,
          jLookup d "description" >>= asStr, jLookup d "personality" >>= asStr with
    | some i, some n, some de, some p => some ⟨i, n, de, p⟩
    | _, _, _, _ => none
  | _ => none

/-- pydantic validation of `LocationPlot`. -/
def parseLocationPlot (j : Json) : Option LocationPlot :=
  match j with
  | .obj d =>
    match jLookup d "title" >>= asStr, jLookup d "description" >>= asStr,
          jLookup d "key_npcs" >>= (fun v => match v with | .arr xs => parseAll asStr xs | _ => none),
          jLookup d "status" >>= asStr with
    | some t, some de, some ks, some st => some ⟨t, de, ks, st⟩
    | _, _, _, _ => none
  | _ => none

/-- A JSON array of strings, or validation failure. -/
def asStrList (j : Json) : Option (List String) :=
  match j with
  | .arr xs => parseAll asStr xs
  | _ => none

/-- pydantic validation of `LocationModel`. -/
def parseLocationModel (j : Json) : Option LocationModel :=
  match j with
  | .obj d =>
    match jLookup d "id" >>= asStr, jLookup d "name" >>= asStr,
          jLookup d "type" >>= asStr, jLookup d "description" >>= asStr with
    | some i, some n, some ty, some de =>
      match jLookup d "connected_to" >>= asStrList,
            jLookup d "primary_npcs" >>= asStrList,
            jLookup d "secondary_npcs" >>= asStrList,
            jLookup d "plot" >>= parseLocationPlot with
      | some co, some pn, some sn, some pl => some ⟨i, n, ty, de, co, pn, sn, pl⟩
      | _, _, _, _ => none
    | _, _, _, _ => none
  | _ => none

/-- pydantic validation of `PlayerCharacterModel`. -/
def parsePlayerCharacterModel (j : Json) : Option PlayerCharacterModel :=
  match j with
  | .obj d =>
    match jLookup d "name" >>= asStr, jLookup d "description" >>= asStr,
          jLookup d "personality" >>= asStr with
    | some n, some de, some p => some ⟨n, de, p⟩
    | _, _, _ => none
  | _ => none

/-- pydantic validation of a whole `WorldModel`
(`WorldModel.model_validate` / `model_validate_json` after JSON text
parsing).  Purely structural: types and required fields only. -/
def parseWorldModel (j : Json) : Option WorldModel :=
  match j with
  | .obj d =>
    match jLookup d "world_name" >>= asStr,
          jLookup d "locations" >>= (fun v => match v with | .arr xs => parseAll parseLocationModel xs | _ => none),
          jLookup d "npcs" >>= (fun v => match v with | .arr xs => parseAll parseNPCModel xs | _ => none),
          jLookup d "player_character" >>= parsePlayerCharacterModel with
    | some wn, some ls, some ns, some pc => some ⟨wn, ls, ns, pc⟩
    | _, _, _, _ => none
  | _ => none

/-- `model_dump` of an NPC (field order as declared). -/
def npcToJson (n : NPCModel) : Json :=
  .obj [("id", .str n.id), ("name", .str n.name),
        ("description", .str n.description), ("personality", .str n.personality)]

/-- `model_dump` of a plot. -/
def plotToJson (p : LocationPlot) : Json :=
  .obj [("title", .str p.title), ("description", .str p.description),
        ("key_npcs", .arr (p.key_npcs.map .str)), ("status", .str p.status)]

/-- `model_dump` of a location. -/
def locationToJson (l : LocationModel) : Json :=
  .obj [("id", .str l.id), ("name", .str l.name), ("type", .str l.type),
        ("description", .str l.description),
        ("connected_to", .arr (l.connected_to.map .str)),
        ("primary_npcs", .arr (l.primary_npcs.map .str)),
        ("secondary_npcs", .arr (l.secondary_npcs.map .str)),
        ("plot", plotToJson l.plot)]

/-- `model_dump` of a player character. -/
def playerToJson (p : PlayerCharacterModel) : Json :=
  .obj [("name", .str p.name), ("description", .str p.description),
        ("personality", .str p.personality)]

/-- `world_data.model_dump()` as the JSON document `json.dump` writes. -/
def worldToJson (w : WorldModel) : Json :=
  .obj [("world_name", .str w.world_name),
        ("locations", .arr (w.locations.map locationToJson)),
        ("npcs", .arr (w.npcs.map npcToJson)),
        ("player_character", playerToJson w.player_character)]

/-- Embeds the acceptance step of `WorldGenerator.generate_world`
(world_generator.py line 109): the LLM response, parsed as JSON text,
is validated against the `WorldModel` schema and the world is returned
iff validation succeeds.  The function performs no further check. -/
def generate_world_validate (response : Json) : Option WorldModel :=
  parseWorldModel response

/-- Embeds `WorldGenerator.save_world` (lines 149-157): the JSON
document written to the file (`json.dump(world_data.model_dump())`);
the textual JSON encode/decode layer is a faithful bijection for these
values and is elided. -/
def save_world (w : WorldModel) : Json := worldToJson w

/-- Embeds `WorldGenerator.load_world` (lines 159-171) on a present,
readable file: `json.load` then `WorldModel.model_validate`. -/
def load_world (doc : Json) : Option WorldModel := parseWorldModel doc

/-- Modelled from the spec (section 3 World invariant, section 8): every
NPC id referenced by a location resolves to an entry of `npcs`, and
every `connected_to` id resolves to a location.  This is the property
the spec says generation/validation must enforce; it is written from the
spec wording so it can be compared against what the code checks. -/
def specWorldRefsValid (w : WorldModel) : Bool :=
  w.locations.all (fun loc =>
    ((loc.primary_npcs ++ loc.secondary_npcs ++ loc.plot.key_npcs).all
      (fun nid => w.npcs.any (fun n => n.id == nid))) &&
    (loc.connected_to.all (fun cid => w.locations.any (fun l2 => l2.id == cid))))

/-! ## Relationship graph (WorldGenerator.create_world_graph) -/

/-- An undirected networkx graph: nodes in insertion order, edges as
unordered pairs in insertion order.  Node attributes (type, name,
description) are dropped; no claim concerns them. -/
structure NxGraph where
  nodes : List String
  edges : List (String × String)
deriving DecidableEq

/-- Node membership. -/
def hasNode (g : NxGraph) (v : String) : Bool := g.nodes.contains v

/-- `G.add_node`: inserts the node if absent. -/
def addNode (g : NxGraph) (v : String) : NxGraph :=
  if hasNode g v then g else ⟨g.nodes ++ [v], g.edges⟩

/-- Undirected edge membership. -/
def hasEdge (g : NxGraph) (u v : String) : Bool :=
  g.edges.any (fun e => (e.1 == u && e.2 == v) || (e.1 == v && e.2 == u))

/-- `G.add_edge`: creates missing endpoints, then inserts the edge if
not already present (undirected). -/
def addEdge (g : NxGraph) (u v : String) : NxGraph :=
  let g2 := addNode (addNode g u) v
  if hasEdge g2 u v then g2 else ⟨g2.nodes, g2.edges ++ [(u, v)]⟩

/-- Embeds `WorldGenerator.create_world_graph` (world_generator.py
lines 123-147): location nodes, one edge per `connected_to` entry, NPC
nodes, then - exactly as line 145 does - `add_edge(npc.id, npc.id)`. -/
def create_world_graph (w : WorldModel) : NxGraph :=
  let g1 := w.locations.foldl (fun g loc => addNode g loc.id) ⟨[], []⟩
  let g2 := w.locations.foldl
    (fun g loc => loc.connected_to.foldl (fun gacc cid => addEdge gacc loc.id cid) g) g1
  w.npcs.foldl (fun g npc => addEdge (addNode g npc.id) npc.id npc.id) g2

/-! ## Attitude update (src/gemini/story_engine.py lines 277-289) -/

/-- The negative cue words scanned for in an NPC reaction message. -/
def negativeCues : List String := ["stop", "idiot", "threat", "leave"]

/-- The positive cue words. -/
def positiveCues : List String := ["thank", "friend", "help", "welcome"]

/-- Embeds the per-reaction attitude-update step of
`StoryEngine.generate_story_beat` (gemini/story_engine.py lines
277-289): given the current attitude of the reacting NPC toward the
player and the reaction message, the attitude stored back.  A negative
cue hit takes priority over a positive one (`if`/`elif`); no hit leaves
the attitude unchanged. -/
def attitudeAfterReaction (currentAttitude message : String) : String :=
  if negativeCues.any (fun cue => strContains (pyLower message) cue) then
    if currentAttitude = "neutral" then "hostile" else "neutral"
  else if positiveCues.any (fun cue => strContains (pyLower message) cue) then
    if currentAttitude = "neutral" then "friendly" else currentAttitude
  else currentAttitude

/-! ## Rolling event summary -/

/-- Common body of the two `update_event_summary` variants: append with
separator (plain copy when the old summary is falsy, i.e. empty), then
keep only the last `maxLength` characters. -/
def updateEventSummaryWith (maxLength : Nat) (event_summary new_event : String) : String :=
  let updated := if event_summary = "" then new_event
                 else event_summary ++ " | " ++ new_event
  if updated.length > maxLength then strTakeLast updated maxLength else updated

/-- `NarrativeManager.update_event_summary` (game_engine.py lines
80-85), `max_length = 200`. -/
def update_event_summary (event_summary new_event : String) : String :=
  updateEventSummaryWith 200 event_summary new_event

/-- `NarrativeManager.update_event_summary` (main.py lines 82-88),
`max_length = 2000`. -/
def update_event_summary_main (event_summary new_event : String) : String :=
  updateEventSummaryWith 2000 event_summary new_event

/-! ## Turn-processing engine (src/game_engine.py)

Effects are an oracle `Env`: the LLM endpoint (consumed by call index;
the HTTP body extraction heuristics of `LLMClient.call_llm` lines 36-46
are folded into the oracle string, since no property concerns them),
`input()` (by read index), and `json.loads` as an abstract parser.
Exceptions are `Except PyErr`; the engine methods, which mutate
`self`, additionally return the state at the raise point so that
partial mutation on failure is observable. -/

/-- Python exception kinds the embedded code can raise. -/
inductive PyErr where
  | http (statusCode : Nat)
  | typeError
  | keyError
  | indexError
deriving DecidableEq

/-- The effect oracle: LLM responses (HTTP status failure or the
extracted response string), user input lines, and `json.loads`. -/
structure Env where
  llm : Nat → Except Nat String
  userLine : Nat → String
  jsonLoads : String → Option Json

/-- Effect counters: how many LLM calls / input reads happened. -/
structure Ctr where
  llmCalls : Nat
  userReads : Nat
deriving DecidableEq

/-- `LLMClient.call_llm` (game_engine.py lines 25-46):
`raise_for_status` turns an HTTP failure into an exception, otherwise
the extracted response string is returned.  The prompt does not steer
the oracle (responses are consumed by call order). -/
def call_llm (env : Env) (c : Ctr) (_prompt : String) : Except PyErr (String × Ctr) :=
  match env.llm c.llmCalls with
  | .error code => .error (.http code)
  | .ok s => .ok (s, ⟨c.llmCalls + 1, c.userReads⟩)

/-- One `input()` read. -/
def readInput (env : Env) (c : Ctr) : String × Ctr :=
  (env.userLine c.userReads, ⟨c.llmCalls, c.userReads + 1⟩)

/-- `PlayerCharacter` (game_engine.py lines 9-15). -/
structure PlayerCharacter where
  name : String
  role : String

/-- The mutable `GameEngine` session state: `self.world`,
`self.current_location` (a location dict, as set by `start_game` /
`update_game_state`), `self.event_summary`, `self.player`. -/
structure GState where
  world : PyDict
  currentLocation : PyDict
  eventSummary : String
  player : PlayerCharacter

/-- `.get(k, dflt)` on an arbitrary value: raises (`AttributeError`,
modelled as `typeError`) when the receiver is not a dict. -/
def pyGetAttr (j : Json) (k : String) (dflt : Json) : Except PyErr Json :=
  match j with
  | .obj d => .ok ((jLookup d k).getD dflt)
  | _ => .error .typeError

/-- `d[k]` on a dict: `KeyError` when absent. -/
def pyGetItem (d : PyDict) (k : String) : Except PyErr Json :=
  match jLookup d k with
  | some v => .ok v
  | none => .error .keyError

/-- Iterating a JSON value as a list; iteration over a non-list is
modelled as `typeError`. -/
def jsonAsList (j : Json) : Except PyErr (List Json) :=
  match j with
  | .arr xs => .ok xs
  | _ => .error .typeError

/-- `self.current_location.get("npcs", [])`. -/
def npcsOfLocation (loc : PyDict) : Except PyErr (List Json) :=
  jsonAsList (pyGetD loc "npcs" (.arr []))

/-- One line of the `npc_context` built by
`generate_narrative_segment` (lines 58-62); prompt wording is
abbreviated, only the raising field accesses matter. -/
def npcContextLine (npc : Json) : Except PyErr String :=
  match npc with
  | .obj d =>
    let motive := (jLookup d "motive").getD .null
    let motiveText := if pyTruthy motive then " | Motive: " ++ pyStr motive else ""
    .ok ("- " ++ pyStr ((jLookup d "name").getD .null) ++ ": " ++
         pyStr ((jLookup d "visual_description").getD (.str "")) ++ motiveText ++ "\n")
  | _ => .error .typeError

/-- The `npc_context` loop of `generate_narrative_segment`. -/
def buildNpcContext : List Json → Except PyErr String
  | [] => .ok ""
  | npc :: rest =>
    match npcContextLine npc with
    | .error e => .error e
    | .ok line =>
      match buildNpcContext rest with
      | .error e => .error e
      | .ok tail => .ok (line ++ tail)

/-- `NarrativeManager.generate_narrative_segment` (game_engine.py lines
55-78): builds the prompt (the only observable effects of which are the
raising accesses on the location's NPC entries), performs one LLM call,
and prefixes the reply with `Narrative: `.  Literal prompt text is
abbreviated. -/
def generate_narrative_segment (env : Env) (c : Ctr) (location : PyDict)
    (summary : String) (player : PlayerCharacter) (playerInput : String) :
    Except PyErr (String × Ctr) :=
  match npcsOfLocation location with
  | .error e => .error e
  | .ok availableNpcs =>
    match (if availableNpcs.isEmpty then Except.ok "" else
            match buildNpcContext availableNpcs with
            | .error e => .error e
            | .ok body => .ok ("Available NPCs (for context only):\n" ++ body)) with
    | .error e => .error e
    | .ok npcContext =>
      let prompt := "You are a creative Dungeon Master. " ++ npcContext ++
        "\nLocation Description: " ++ pyStr (pyGetD location "visual_description" (.str "")) ++
        "\nPlot: " ++ pyStr (pyGetD location "plot" (.str "No plot info provided")) ++
        "\nEvent Summary: " ++ summary ++
        "\nPlayer Character: " ++ player.name ++ " (" ++ player.role ++ ")" ++
        "\nPlayer Action (paraphrase if needed): " ++ playerInput
      match call_llm env c prompt with
      | .error e => .error e
      | .ok (resp, c2) => .ok ("Narrative: " ++ resp, c2)

/-- `NarrativeManager.generate_followup_narrative` (lines 87-96): one
LLM call, reply prefixed with `Update: `; the NPC responses only feed
prompt text. -/
def generate_followup_narrative (env : Env) (c : Ctr) (_npcResponses : List PyDict)
    (previousSummary : String) : Except PyErr (String × Ctr) :=
  match call_llm env c ("Based on the following NPC interactions and the previous event summary, generate a concise follow-up narrative. Event Summary: " ++ previousSummary) with
  | .error e => .error e
  | .ok (resp, c2) => .ok ("Update: " ++ resp, c2)

/-- `NarrativeManager.generate_dynamic_choices` (lines 98-117): one LLM
call; the reply must `json.loads` to a list of strings, otherwise the
empty list is returned (parse errors are swallowed). -/
def generate_dynamic_choices (env : Env) (c : Ctr) (location : PyDict)
    (summary playerInput : String) : Except PyErr (List String × Ctr) :=
  match call_llm env c ("Generate three action choices. Location Description: " ++
      pyStr (pyGetD location "visual_description" (.str "")) ++ " Event Summary: " ++
      summary ++ " Player Action: " ++ playerInput) with
  | .error e => .error e
  | .ok (resp, c2) =>
    match env.jsonLoads resp with
    | some (.arr xs) =>
      match parseAll asStr xs with
      | some strs => .ok (strs, c2)
      | none => .ok ([], c2)
    | _ => .ok ([], c2)

/-- `ChoiceManager.capture_player_choice` (lines 128-138): a digit
string in menu range picks that option; an out-of-range digit string or
non-empty free text is returned verbatim; empty input falls back to the
first option (or the empty string when there are no options). -/
def capture_player_choice (env : Env) (c : Ctr) (choices : List String) : String × Ctr :=
  let (raw, c2) := readInput env c
  let ui := raw.trim
  if ui ≠ "" ∧ ui.data.all Char.isDigit then
    match ui.toNat? with
    | some n => if 1 ≤ n ∧ n ≤ choices.length then (choices.getD (n - 1) "", c2) else (ui, c2)
    | none => (ui, c2)
  else if ui ≠ "" then (ui, c2)
  else
    match choices with
    | [] => ("", c2)
    | x :: _ => (x, c2)

/-- `npc.get("name", "").split()[0].lower()` (lines 151, 162): the
lowered first token of the NPC name; `IndexError` when the name has no
token, `typeError` when the name is not a string or the entry is not a
dict. -/
def npcFirstToken (npc : Json) : Except PyErr String :=
  match npc with
  | .obj d =>
    match (jLookup d "name").getD (.str "") with
    | .str s =>
      match pyTokens s with
      | [] => .error .indexError
      | t :: _ => .ok (pyLower t)
    | _ => .error .typeError
  | _ => .error .typeError

/-- The two structurally identical matching loops of
`determine_active_npcs` (lines 149-157 against the player action and
161-164 against the narrative): keep the NPCs whose lowered first name
token occurs in the lowered text. -/
def matchByFirstToken : List Json → String → Except PyErr (List Json)
  | [], _ => .ok []
  | npc :: rest, textLower =>
    match npcFirstToken npc with
    | .error e => .error e
    | .ok tok =>
      match matchByFirstToken rest textLower with
      | .error e => .error e
      | .ok tail => .ok (if strContains textLower tok then npc :: tail else tail)

/-- The per-candidate presence filter of `determine_active_npcs`
(lines 166-176): one LLM call per candidate, kept iff the lowered reply
contains `true`. -/
def presenceFilterLoop (env : Env) (narrative : String) :
    Ctr → List Json → Except PyErr (List Json × Ctr)
  | c, [] => .ok ([], c)
  | c, npc :: rest =>
    match call_llm env c ("Determine if the NPC is still actively present. Narrative: " ++ narrative) with
    | .error e => .error e
    | .ok (resp, c2) =>
      match presenceFilterLoop env narrative c2 rest with
      | .error e => .error e
      | .ok (tail, c3) =>
        .ok (if strContains (pyLower resp) "true" then npc :: tail else tail, c3)

/-- `NPCInteractionModule.determine_active_npcs` (game_engine.py lines
147-199): direct first-name matches against the player action; else
narrative matches filtered per candidate by the LLM (falling back to
the unfiltered matches when the filter empties the list); else one LLM
call whose reply must parse to a JSON list (else the empty list). -/
def determine_active_npcs (env : Env) (c : Ctr) (npcs : List Json)
    (narrative playerAction : String) : Except PyErr (List Json × Ctr) :=
  match matchByFirstToken npcs (pyLower playerAction) with
  | .error e => .error e
  | .ok directMatches =>
    if directMatches.isEmpty then
      match matchByFirstToken npcs (pyLower narrative) with
      | .error e => .error e
      | .ok active =>
        if active.isEmpty then
          match call_llm env c ("Decide which NPCs should interact. Narrative: " ++
              narrative ++ " Player Action: " ++ playerAction) with
          | .error e => .error e
          | .ok (resp, c2) =>
            match env.jsonLoads resp with
            | some (.arr xs) => .ok (xs, c2)
            | _ => .ok ([], c2)
        else
          match presenceFilterLoop env narrative c active with
          | .error e => .error e
          | .ok (filtered, c2) => .ok (if filtered.isEmpty then active else filtered, c2)
    else .ok (directMatches, c)

/-- The default reply `generate_npc_response` falls back to on any
parse failure (lines 225-230); `nameVal` is `npc.get("name")`. -/
def defaultNpcReply (nameVal : Json) : PyDict :=
  [("name", nameVal), ("action", .str "remains silent"),
   ("speech", .str "I have nothing to say at this moment.")]

/-- One round of the key-defaulting loop of `generate_npc_response`
(lines 221-223): insert the key (at the end, as Python dict assignment
does) with the empty string when absent. -/
def addKeyIfMissing (d : PyDict) (k : String) : PyDict :=
  if (jLookup d k).isSome then d else d ++ [(k, .str "")]

/-- The full key-defaulting loop over name/action/speech. -/
def fillDefaultKeys (reply : PyDict) : PyDict :=
  (["name", "action", "speech"] : List String).foldl addKeyIfMissing reply

/-- `NPCInteractionModule.generate_npc_response` (game_engine.py lines
201-230): prompt construction (whose only observable effects are the
`.get` accesses on the NPC dict), one LLM call outside the `try`, then
inside the `try`: `json.loads` plus key defaulting.  Any failure there
- unparsable reply, or a reply that is not a JSON object (on which the
key assignment raises and is caught) - yields the default reply. -/
def generate_npc_response (env : Env) (c : Ctr) (npc : Json) (dialogue : String) :
    Except PyErr (PyDict × Ctr) :=
  match pyGetAttr npc "motive" .null with
  | .error e => .error e
  | .ok motive =>
    match pyGetAttr npc "name" .null with
    | .error e => .error e
    | .ok nameVal =>
      match call_llm env c ("You are role-playing as an NPC. Dialogue: " ++ dialogue ++
          " NPC Name: " ++ pyStr nameVal ++
          (if pyTruthy motive then " Motive: " ++ pyStr motive else "")) with
      | .error e => .error e
      | .ok (resp, c2) =>
        match env.jsonLoads resp with
        | some (.obj reply) => .ok (fillDefaultKeys reply, c2)
        | _ => .ok (defaultNpcReply nameVal, c2)

/-- Python `==` between a value out of a dict and a string: true only
when the value is that string (no exception). -/
def jsonEqStr (j : Json) (s : String) : Bool :=
  match j with
  | .str t => t == s
  | _ => false

/-- The location-matching loop of `update_game_state` (lines 271-275):
first location dict whose `name` entry equals the target
(`loc["name"]` raises on a missing key or a non-dict entry). -/
def findLocationByName : List Json → String → Except PyErr (Option PyDict)
  | [], _ => .ok none
  | loc :: rest, target =>
    match loc with
    | .obj d =>
      match jLookup d "name" with
      | none => .error .keyError
      | some v =>
        if jsonEqStr v target then .ok (some d)
        else findLocationByName rest target
    | _ => .error .typeError

/-- `GameEngine.update_game_state` (game_engine.py lines 269-278): when
the (truthy) new location name matches a location of
`self.world["locations"]`, `current_location` is replaced; then a
(truthy) event is folded into the summary.  Errors carry the state at
the raise point. -/
def update_game_state (st : GState) (newLocationName : Option String)
    (event : Option String) : Except (PyErr × GState) GState :=
  let step1 : Except (PyErr × GState) GState :=
    match newLocationName with
    | none => .ok st
    | some nm =>
      if nm = "" then .ok st
      else
        match jsonAsList (pyGetD st.world "locations" (.arr [])) with
        | .error e => .error (e, st)
        | .ok locs =>
          match findLocationByName locs nm with
          | .error e => .error (e, st)
          | .ok none => .ok st
          | .ok (some d) => .ok { st with currentLocation := d }
  match step1 with
  | .error e => .error e
  | .ok st1 =>
    match event with
    | none => .ok st1
    | some ev =>
      if ev = "" then .ok st1
      else .ok { st1 with eventSummary := update_event_summary st1.eventSummary ev }

/-- The duplicated numbered-menu selection step of `handle_talk_option`
(lines 291-301) and `handle_move_option` (lines 330-340): `int()` on
the stripped input; in-range index picks that candidate, out-of-range
or `ValueError` falls back to the first.  `none` only when the
candidate list is empty (the handlers guard against that earlier). -/
def selectCandidate {α : Type} (cands : List α) (selection : String) : Option α :=
  match pythonParseInt selection with
  | some n =>
    if 0 ≤ n - 1 ∧ n - 1 < (cands.length : Int) then cands.get? (n - 1).toNat
    else cands.head?
  | none => cands.head?

/-- The selection step of `handle_talk_option` in main.py (lines
303-306): the NPC index was parsed by the caller; in-range picks it,
anything else falls back to the first NPC. -/
def mainHandleTalkChoose {α : Type} (cands : List α) (npcIndex : Int) : Option α :=
  if 0 ≤ npcIndex ∧ npcIndex < (cands.length : Int) then cands.get? npcIndex.toNat
  else cands.head?

/-- `GameEngine.handle_talk_option` (game_engine.py lines 280-318). -/
def handle_talk_option (env : Env) (c : Ctr) (st : GState) (activeNpcs : List Json) :
    Except (PyErr × GState) (PyDict × GState × Ctr) :=
  if activeNpcs.isEmpty then
    .ok ([("npc_responses", .arr []), ("followup", .str "")], st, c)
  else
    let (rawSel, c1) := readInput env c
    match selectCandidate activeNpcs rawSel.trim with
    | none => .error (.indexError, st)
    | some chosenNpc =>
      match pyGetAttr chosenNpc "name" .null with
      | .error e => .error (e, st)
      | .ok chosenName =>
        let (rawDlg, c2) := readInput env c1
        let dialogue := rawDlg.trim
        match generate_npc_response env c2 chosenNpc dialogue with
        | .error e => .error (e, st)
        | .ok (npcReply, c3) =>
          let sum1 := update_event_summary st.eventSummary
            ("Player talked to " ++ pyStr chosenName ++ ": " ++ dialogue)
          let st1 := { st with eventSummary := sum1 }
          match generate_followup_narrative env c3 [npcReply] st1.eventSummary with
          | .error e => .error (e, st1)
          | .ok (followup, c4) =>
            let sum2 := update_event_summary st1.eventSummary
              "Scene updated after NPC interaction."
            let st2 := { st1 with eventSummary := sum2 }
            .ok ([("npc_responses", .arr [.obj npcReply]), ("followup", .str followup)],
                 st2, c4)

/-- `GameEngine.handle_move_option` (game_engine.py lines 320-348). -/
def handle_move_option (env : Env) (c : Ctr) (st : GState) (connections : List String) :
    Except (PyErr × GState) (PyDict × GState × Ctr) :=
  if connections.isEmpty then .ok ([("narrative", .str "")], st, c)
  else
    let (rawSel, c1) := readInput env c
    match selectCandidate connections rawSel.trim with
    | none => .error (.indexError, st)
    | some chosenLocation =>
      match update_game_state st (some chosenLocation)
              (some ("Moved to " ++ chosenLocation)) with
      | .error e => .error e
      | .ok st1 =>
        match pyGetItem st1.currentLocation "visual_description" with
        | .error e => .error (e, st1)
        | .ok _ =>
          match generate_narrative_segment env c1 st1.currentLocation st1.eventSummary
                  st1.player "Arrived at new location" with
          | .error e => .error (e, st1)
          | .ok (narrative, c2) => .ok ([("narrative", .str narrative)], st1, c2)

/-- The list-comprehension step of the `npc_names` join (e.g. line
362): each entry's `.get("name", "Unknown")`. -/
def collectNameVals : List Json → Except PyErr (List Json)
  | [] => .ok []
  | npc :: rest =>
    match pyGetAttr npc "name" (.str "Unknown") with
    | .error e => .error e
    | .ok v =>
      match collectNameVals rest with
      | .error e => .error e
      | .ok tail => .ok (v :: tail)

/-- `", ".join(vals)`: raises `TypeError` on a non-string element. -/
def joinComma (vals : List Json) : Except PyErr String :=
  match parseAll asStr vals with
  | some strs => .ok (String.intercalate ", " strs)
  | none => .error .typeError

/-- The default-options construction duplicated in every branch of
`process_player_input` (e.g. lines 360-369, 435-444): a generic
explore action, a talk action naming `talkNpcs` when non-empty, and a
move action naming the current connections (generic when there are
none).  Non-list `connections` values and non-string entries are
modelled as `typeError` (Python would iterate such values weirdly or
raise inside `join`; no claim exercises them). -/
def buildDefaultOptions (talkNpcs : List Json) (loc : PyDict) :
    Except PyErr (List String) :=
  match (if talkNpcs.isEmpty then Except.ok ["Explore the area"] else
          match collectNameVals talkNpcs with
          | .error e => .error e
          | .ok vals =>
            match joinComma vals with
            | .error e => .error e
            | .ok names => .ok (["Explore the area"] ++ ["Talk to someone (" ++ names ++ ")"])) with
  | .error e => .error e
  | .ok opts1 =>
    match jsonAsList (pyGetD loc "connections" (.arr [])) with
    | .error e => .error e
    | .ok connJs =>
      if connJs.isEmpty then .ok (opts1 ++ ["Move to a new location"])
      else
        match joinComma connJs with
        | .error e => .error e
        | .ok connStr => .ok (opts1 ++ ["Move to a new location (" ++ connStr ++ ")"])

/-- Appending the LLM-suggested dynamic choices with exact-string
deduplication (lines 371-373). -/
def appendDynamicChoices (opts : List String) (dyn : List String) : List String :=
  dyn.foldl (fun acc choice => if acc.contains choice then acc else acc ++ [choice]) opts

/-- The turn tail every branch of `process_player_input` ends with:
build the default options from `talkNpcs` and the current location,
add dynamic choices, capture the next player choice, and fold
`Player chose: ...` into the summary.  Returns the option list and the
choice.  (`promptSummary` is the summary snapshot the branch passes to
the dynamic-choice prompt; it does not steer the oracle.) -/
def finishTurn (env : Env) (c : Ctr) (st : GState) (talkNpcs : List Json)
    (promptSummary playerInput : String) :
    Except (PyErr × GState) ((List String × String) × GState × Ctr) :=
  match buildDefaultOptions talkNpcs st.currentLocation with
  | .error e => .error (e, st)
  | .ok defaults =>
    match generate_dynamic_choices env c st.currentLocation promptSummary playerInput with
    | .error e => .error (e, st)
    | .ok (dyn, c2) =>
      let options := appendDynamicChoices defaults dyn
      let (nextChoice, c3) := capture_player_choice env c2 options
      let sum1 := update_event_summary st.eventSummary ("Player chose: " ++ nextChoice)
      .ok ((options, nextChoice), { st with eventSummary := sum1 }, c3)

/-- The cycle-output dict (insertion order as in the source). -/
def mkTurnOutput (narrative npcResponses followup : Json) (options : List String)
    (nextChoice : String) (st : GState) : PyDict :=
  [("narrative", narrative),
   ("npc_responses", npcResponses),
   ("followup", followup),
   ("default_choices", .arr (options.map .str)),
   ("player_choice", .str nextChoice),
   ("current_location", .obj [("name", pyGetD st.currentLocation "name" .null),
                              ("visual_description", pyGetD st.currentLocation "visual_description" .null)]),
   ("event_summary", .str st.eventSummary)]

/-- The per-NPC response loop of the generic path (lines 427-429). -/
def respondLoop (env : Env) (playerInput : String) :
    Ctr → List Json → Except PyErr (List PyDict × Ctr)
  | c, [] => .ok ([], c)
  | c, npc :: rest =>
    match generate_npc_response env c npc playerInput with
    | .error e => .error e
    | .ok (reply, c2) =>
      match respondLoop env playerInput c2 rest with
      | .error e => .error e
      | .ok (tail, c3) => .ok (reply :: tail, c3)

/-- `self.current_location.get("connections", [])` as a string list
(see `buildDefaultOptions` for the treatment of malformed values). -/
def connectionsOfLocation (loc : PyDict) : Except PyErr (List String) :=
  match jsonAsList (pyGetD loc "connections" (.arr [])) with
  | .error e => .error e
  | .ok xs =>
    match parseAll asStr xs with
    | some strs => .ok strs
    | none => .error .typeError

/-- `GameEngine.process_player_input` (game_engine.py lines 350-463).
Substring intent detection picks the talk / move / generic branch; the
result is the cycle-output dict, the new session state and the effect
counters, or the exception together with the session state at the
raise point. -/
def process_player_input (env : Env) (c : Ctr) (st : GState) (playerInput : String) :
    Except (PyErr × GState) (PyDict × GState × Ctr) :=
  if strContains (pyLower playerInput) "talk to" then
    match npcsOfLocation st.currentLocation with
    | .error e => .error (e, st)
    | .ok availableNpcs =>
      match handle_talk_option env c st availableNpcs with
      | .error e => .error e
      | .ok (talkOut, st1, c1) =>
        match finishTurn env c1 st1 availableNpcs st1.eventSummary playerInput with
        | .error e => .error e
        | .ok ((options, nextChoice), st2, c2) =>
          .ok (mkTurnOutput (.str "") (pyGetD talkOut "npc_responses" (.arr []))
                 (pyGetD talkOut "followup" (.str "")) options nextChoice st2, st2, c2)
  else if strContains (pyLower playerInput) "move to" then
    match connectionsOfLocation st.currentLocation with
    | .error e => .error (e, st)
    | .ok connections =>
      match handle_move_option env c st connections with
      | .error e => .error e
      | .ok (moveOut, st1, c1) =>
        match npcsOfLocation st1.currentLocation with
        | .error e => .error (e, st1)
        | .ok newNpcs =>
          match finishTurn env c1 st1 newNpcs st1.eventSummary playerInput with
          | .error e => .error e
          | .ok ((options, nextChoice), st2, c2) =>
            .ok (mkTurnOutput (pyGetD moveOut "narrative" (.str "")) (.arr []) (.str "")
                   options nextChoice st2, st2, c2)
  else
    match generate_narrative_segment env c st.currentLocation st.eventSummary
            st.player playerInput with
    | .error e => .error (e, st)
    | .ok (narrative, c1) =>
      match npcsOfLocation st.currentLocation with
      | .error e => .error (e, st)
      | .ok availableNpcs =>
        match determine_active_npcs env c1 availableNpcs narrative playerInput with
        | .error e => .error (e, st)
        | .ok (activeNpcs, c2) =>
          match (if activeNpcs.isEmpty then Except.ok ([], c2)
                 else if (pyLower playerInput).startsWith "talk to" then Except.ok ([], c2)
                 else respondLoop env playerInput c2 activeNpcs) with
          | .error e => .error (e, st)
          | .ok (npcResponses, c3) =>
            match (if npcResponses.isEmpty then Except.ok (("", st), c3)
                   else
                     match generate_followup_narrative env c3 npcResponses st.eventSummary with
                     | .error e => .error e
                     | .ok (fu, c4) =>
                       let sumA := update_event_summary st.eventSummary
                         "Scene updated after NPC interaction."
                       .ok ((fu, { st with eventSummary := sumA }), c4)) with
            | .error e => .error (e, st)
            | .ok ((followup, st1), c4) =>
              match finishTurn env c4 st1 activeNpcs st.eventSummary playerInput with
              | .error e => .error e
              | .ok ((options, nextChoice), st2, c5) =>
                .ok (mkTurnOutput (.str narrative) (.arr (npcResponses.map .obj))
                       (.str followup) options nextChoice st2, st2, c5)

/-! ## Concrete fixtures for the closed instances below -/

/-- A structurally well-formed world document whose single location
references the NPC id `ghost`, which `npcs` does not define. -/
def danglingWorldJson : Json :=
  .obj [("world_name", .str "W"),
        ("locations", .arr [.obj [("id", .str "l1"), ("name", .str "Town"),
          ("type", .str "city"), ("description", .str "d"),
          ("connected_to", .arr []),
          ("primary_npcs", .arr [.str "ghost"]),
          ("secondary_npcs", .arr []),
          ("plot", .obj [("title", .str "t"), ("description", .str "p"),
            ("key_npcs", .arr []), ("status", .str "active")])]]),
        ("npcs", .arr []),
        ("player_character", .obj [("name", .str "Bob"),
          ("description", .str "b"), ("personality", .str "brave")])]

/-- The world value `danglingWorldJson` validates to. -/
def danglingWorld : WorldModel :=
  ⟨"W", [⟨"l1", "Town", "city", "d", [], ["ghost"], [], ⟨"t", "p", [], "active"⟩⟩],
   [], ⟨"Bob", "b", "brave"⟩⟩

/-- A world with one location whose primary NPC is `n1`. -/
def primaryNpcWorld : WorldModel :=
  ⟨"G", [⟨"l1", "Town", "city", "d", [], ["n1"], [], ⟨"t", "p", ["n1"], "active"⟩⟩],
   [⟨"n1", "Mara", "desc", "kind"⟩], ⟨"Bob", "b", "brave"⟩⟩

/-- An oracle whose LLM endpoint always answers HTTP 500. -/
def envHttp500 : Env := ⟨fun _ => .error 500, fun _ => "", fun _ => none⟩

/-- An oracle whose LLM endpoint always answers the text `true` and
whose `json.loads` always fails. -/
def envAlwaysTrue : Env := ⟨fun _ => .ok "true", fun _ => "", fun _ => none⟩

/-- An oracle whose LLM endpoint answers unparsable prose. -/
def envProse : Env := ⟨fun _ => .ok "just prose", fun _ => "", fun _ => none⟩

/-- A small session state: one-location world, empty summary. -/
def harborState : GState :=
  ⟨[("locations", .arr [.obj [("name", .str "Harbor"), ("visual_description", .str "docks")]])],
   [("name", .str "Harbor"), ("visual_description", .str "docks"), ("npcs", .arr [])],
   "", ⟨"Alex", "detective"⟩⟩

/-- Well-formedness of the `npcs` entry of a location dict: a list of
dicts (what the world format provides; prompt construction iterates it
and calls `.get` on each entry). -/
def locationNpcsOk (loc : PyDict) : Bool :=
  match pyGetD loc "npcs" (.arr []) with
  | .arr xs => xs.all (fun j => match j with | .obj _ => true | _ => false)
  | _ => false

/-- One NPC whose name tokenises. -/
def maraNpcs : List Json := [.obj [("name", .str "Mara Jade")]]

/-- NPC roster whose second entry has a whitespace-only name. -/
def blankNameNpcs : List Json :=
  [.obj [("name", .str "Mara Jade")], .obj [("name", .str "   ")]]

/-! ## Helper lemmas -/

/-- Validating a serialised list element-wise succeeds when each
element round-trips. -/
theorem parseAll_map {α : Type} (p : Json → Option α) (f : α → Json)
    (h : ∀ x, p (f x) = some x) : ∀ xs : List α, parseAll p (xs.map f) = some xs
  | [] => rfl
  | x :: xs => by simp [List.map, parseAll, h x, parseAll_map p f h xs]

/-- String lists round-trip through serialisation. -/
theorem asStrList_map_str (l : List String) : asStrList (.arr (l.map .str)) = some l := by
  simpa [asStrList] using parseAll_map asStr .str (fun _ => rfl) l

/-- NPCs round-trip. -/
theorem parseNPCModel_roundtrip (n : NPCModel) : parseNPCModel (npcToJson n) = some n := rfl

/-- Plots round-trip. -/
theorem parseLocationPlot_roundtrip (p : LocationPlot) :
    parseLocationPlot (plotToJson p) = some p := by
  simp [parseLocationPlot, plotToJson, jLookup, asStrList_map_str, asStr,
        parseAll_map asStr Json.str (fun _ => rfl)]

/-- Locations round-trip. -/
theorem parseLocationModel_roundtrip (l : LocationModel) :
    parseLocationModel (locationToJson l) = some l := by
  simp [parseLocationModel, locationToJson, jLookup, asStr, asStrList,
        parseAll_map asStr Json.str (fun _ => rfl), parseLocationPlot_roundtrip]

/-- Player characters round-trip. -/
theorem parsePlayerCharacterModel_roundtrip (p : PlayerCharacterModel) :
    parsePlayerCharacterModel (playerToJson p) = some p := rfl

/-- Whole worlds round-trip through `model_dump` + validation. -/
theorem parseWorldModel_roundtrip (w : WorldModel) :
    parseWorldModel (worldToJson w) = some w := by
  simp [parseWorldModel, worldToJson, jLookup, asStr,
        parseAll_map parseLocationModel locationToJson parseLocationModel_roundtrip,
        parseAll_map parseNPCModel npcToJson parseNPCModel_roundtrip,
        parsePlayerCharacterModel_roundtrip]

/-- String append on the character level. -/
theorem strData_append (a b : String) : (a ++ b).data = a.data ++ b.data := rfl

/-- The truncated summary never exceeds the limit, unconditionally. -/
theorem updateEventSummaryWith_le (m : Nat) (s e : String) :
    (updateEventSummaryWith m s e).length ≤ m := by
  unfold updateEventSummaryWith
  by_cases h : (if s = "" then e else s ++ " | " ++ e).length > m
  · simp only [if_pos h]
    show ((if s = "" then e else s ++ " | " ++ e).data.drop _).length ≤ m
    rw [List.length_drop]
    omega
  · simp only [if_neg h]
    omega

/-- The updated summary is a suffix of old-summary + separator + event. -/
theorem updateEventSummaryWith_suffix (m : Nat) (s e : String) :
    (updateEventSummaryWith m s e).data <:+ (s ++ " | " ++ e).data := by
  have hsub : (if s = "" then e else s ++ " | " ++ e).data <:+ (s ++ " | " ++ e).data := by
    by_cases hs : s = ""
    · subst hs
      rw [if_pos rfl, strData_append]
      exact List.suffix_append _ _
    · rw [if_neg hs]
  unfold updateEventSummaryWith
  by_cases h : (if s = "" then e else s ++ " | " ++ e).length > m
  · simp only [if_pos h]
    exact (List.drop_suffix _ _).trans hsub
  · simp only [if_neg h]
    exact hsub

/-- After at least one append, the rolling summary obeys the limit
whatever the starting string was. -/
theorem foldl_update_length_le (m : Nat) (evs : List String) :
    ∀ s e0 : String, (List.foldl (updateEventSummaryWith m) s (e0 :: evs)).length ≤ m := by
  induction evs with
  | nil => intro s e0; simpa [List.foldl] using updateEventSummaryWith_le m s e0
  | cons e1 tail ih =>
    intro s e0
    simpa [List.foldl] using ih (updateEventSummaryWith m s e0) e1

/-! ## Claims -/

/-- C1 counterexample: the claim says generation/validation rejects a
World with a dangling NPC reference; here is a structurally valid
document that `generate_world` validation accepts although its
location references the undefined NPC id `ghost`. -/
theorem generate_world_accepts_dangling_reference :
    generate_world_validate danglingWorldJson = some danglingWorld ∧
    specWorldRefsValid danglingWorld = false := ⟨rfl, rfl⟩

/-- C1 (amended): `generate_world` validation is purely structural -
it accepts every world that matches the schema, in particular every
world violating the spec's referential-integrity invariant, which is
therefore not enforced anywhere. -/
theorem generate_world_validation_ignores_refs (w : WorldModel)
    (_h : specWorldRefsValid w = false) :
    generate_world_validate (worldToJson w) = some w :=
  parseWorldModel_roundtrip w

/-- C1 amended witness at the dangling-reference world. -/
theorem generate_world_validation_ignores_refs_witness :
    generate_world_validate (worldToJson danglingWorld) = some danglingWorld :=
  generate_world_validation_ignores_refs danglingWorld rfl

/-- C7: saving a world and loading it back yields a world equal to the
original in every field, nested plots and NPCs included. -/
theorem load_save_world_roundtrip (w : WorldModel) :
    load_world (save_world w) = some w :=
  parseWorldModel_roundtrip w

/-- C3: a single `update_event_summary` append never exceeds the
configured maximum (200 in game_engine.py, 2000 in main.py) and
produces a suffix of old-summary + separator + new-event, so the most
recently appended text survives truncation; and after any non-empty
sequence of appends the summary still obeys the limit. -/
theorem event_summary_bounded_and_suffix_preserving (s e : String) :
    (update_event_summary s e).length ≤ 200 ∧
    (update_event_summary s e).data <:+ (s ++ " | " ++ e).data ∧
    (update_event_summary_main s e).length ≤ 2000 ∧
    (update_event_summary_main s e).data <:+ (s ++ " | " ++ e).data ∧
    (∀ (e0 : String) (evs : List String),
      (List.foldl update_event_summary s (e0 :: evs)).length ≤ 200) ∧
    (∀ (e0 : String) (evs : List String),
      (List.foldl update_event_summary_main s (e0 :: evs)).length ≤ 2000) := by
  refine ⟨updateEventSummaryWith_le 200 s e, updateEventSummaryWith_suffix 200 s e,
          updateEventSummaryWith_le 2000 s e, updateEventSummaryWith_suffix 2000 s e,
          ?_, ?_⟩
  · intro e0 evs
    simpa [update_event_summary] using foldl_update_length_le 200 evs s e0
  · intro e0 evs
    simpa [update_event_summary_main] using foldl_update_length_le 2000 evs s e0

/-- C6: on a reaction message containing the negative cue `stop`, the
embedded attitude update sends friendly to neutral and neutral to
hostile (one step down), but sends hostile to neutral - one step UP
the ladder - contradicting the claim that a negative hit moves the
attitude monotonically downward.  The code slip is
`new_attitude = "hostile" if current_attitude == "neutral" else
"neutral"` on gemini/story_engine.py line 284, directly under the
comment `Simple transition: friendly -> neutral -> hostile`. -/
theorem attitude_negative_cue_behavior :
    attitudeAfterReaction "friendly" "You should stop this" = "neutral" ∧
    attitudeAfterReaction "neutral" "You should stop this" = "hostile" ∧
    attitudeAfterReaction "hostile" "You should stop this" = "neutral" := ⟨rfl, rfl, rfl⟩

/-- C8: on a world whose location l1 has primary NPC n1, the embedded
`create_world_graph` produces no edge between n1 and l1 - instead it
gives n1 a self-loop (line 145 is `G.add_edge(npc.id, npc.id)`,
directly under the comment `connect them to their locations`).  Both
nodes do exist. -/
theorem create_world_graph_self_loop_bug :
    hasEdge (create_world_graph primaryNpcWorld) "n1" "l1" = false ∧
    hasEdge (create_world_graph primaryNpcWorld) "n1" "n1" = true ∧
    (create_world_graph primaryNpcWorld).nodes = ["l1", "n1"] := ⟨rfl, rfl, rfl⟩

/-- Lookup across a dict extension. -/
theorem jLookup_append (d1 d2 : PyDict) (k : String) :
    jLookup (d1 ++ d2) k =
      (match jLookup d1 k with | some v => some v | none => jLookup d2 k) := by
  induction d1 with
  | nil => rfl
  | cons p rest ih =>
    by_cases h : p.1 = k
    · simp [jLookup, h]
    · simp [jLookup, h, ih]

/-- Inserting a key when missing makes its lookup total. -/
theorem addKeyIfMissing_lookup_same (d : PyDict) (k : String) :
    jLookup (addKeyIfMissing d k) k = some ((jLookup d k).getD (.str "")) := by
  unfold addKeyIfMissing
  cases h : jLookup d k with
  | some v => simp [h]
  | none => simp [h, jLookup_append, jLookup]

/-- Inserting one key leaves other lookups unchanged. -/
theorem addKeyIfMissing_lookup_other (d : PyDict) (k2 k : String) (hk : k2 ≠ k) :
    jLookup (addKeyIfMissing d k2) k = jLookup d k := by
  unfold addKeyIfMissing
  cases h : jLookup d k2 with
  | some v => simp [h]
  | none =>
    simp only [h, Option.isSome_none, Bool.false_eq_true, if_false, jLookup_append]
    cases h2 : jLookup d k with
    | some v => rfl
    | none => simp [jLookup, hk]

/-- After the defaulting loop, each of the three keys resolves: to its
original value when present, to the empty string otherwise. -/
theorem fillDefaultKeys_lookup (kvs : PyDict) :
    jLookup (fillDefaultKeys kvs) "name" = some ((jLookup kvs "name").getD (.str "")) ∧
    jLookup (fillDefaultKeys kvs) "action" = some ((jLookup kvs "action").getD (.str "")) ∧
    jLookup (fillDefaultKeys kvs) "speech" = some ((jLookup kvs "speech").getD (.str "")) := by
  have hfill : fillDefaultKeys kvs =
      addKeyIfMissing (addKeyIfMissing (addKeyIfMissing kvs "name") "action") "speech" := rfl
  refine ⟨?_, ?_, ?_⟩
  · rw [hfill, addKeyIfMissing_lookup_other _ _ _ (by decide),
        addKeyIfMissing_lookup_other _ _ _ (by decide),
        addKeyIfMissing_lookup_same]
  · rw [hfill, addKeyIfMissing_lookup_other _ _ _ (by decide),
        addKeyIfMissing_lookup_same,
        addKeyIfMissing_lookup_other _ _ _ (by decide)]
  · rw [hfill, addKeyIfMissing_lookup_same,
        addKeyIfMissing_lookup_other _ _ _ (by decide),
        addKeyIfMissing_lookup_other _ _ _ (by decide)]

/-- C4: with the LLM reply delivered, `generate_npc_response` never
raises on a malformed reply: total parse failure yields the default
triple (the NPC's own name, `remains silent`, `I have nothing to say
at this moment.`), and a reply that parses to an object has any
missing key among name/action/speech defaulted to the empty string. -/
theorem generate_npc_response_parse_fallback
    (env : Env) (c : Ctr) (d : PyDict) (dialogue r : String)
    (hLlm : env.llm c.llmCalls = .ok r) :
    (env.jsonLoads r = none →
      generate_npc_response env c (.obj d) dialogue =
        .ok ([("name", (jLookup d "name").getD .null),
              ("action", .str "remains silent"),
              ("speech", .str "I have nothing to say at this moment.")],
             ⟨c.llmCalls + 1, c.userReads⟩)) ∧
    (∀ kvs, env.jsonLoads r = some (.obj kvs) →
      generate_npc_response env c (.obj d) dialogue =
        .ok (fillDefaultKeys kvs, ⟨c.llmCalls + 1, c.userReads⟩) ∧
      jLookup (fillDefaultKeys kvs) "name" = some ((jLookup kvs "name").getD (.str "")) ∧
      jLookup (fillDefaultKeys kvs) "action" = some ((jLookup kvs "action").getD (.str "")) ∧
      jLookup (fillDefaultKeys kvs) "speech" = some ((jLookup kvs "speech").getD (.str ""))) := by
  constructor
  · intro hParse
    simp [generate_npc_response, pyGetAttr, call_llm, hLlm, hParse, defaultNpcReply]
  · intro kvs hParse
    refine ⟨?_, fillDefaultKeys_lookup kvs⟩
    simp [generate_npc_response, pyGetAttr, call_llm, hLlm, hParse]

/-- C4 witness: a prose reply that fails to parse yields the default
triple for NPC Mara. -/
theorem generate_npc_response_parse_fallback_witness :
    generate_npc_response envProse ⟨0, 0⟩ (.obj [("name", .str "Mara")]) "hi" =
      .ok ([("name", .str "Mara"),
            ("action", .str "remains silent"),
            ("speech", .str "I have nothing to say at this moment.")], ⟨1, 0⟩) :=
  (generate_npc_response_parse_fallback envProse ⟨0, 0⟩ [("name", .str "Mara")]
    "hi" "just prose" rfl).1 rfl

/-- C5: on a non-empty candidate menu, the duplicated selection step of
`handle_talk_option` / `handle_move_option` always yields a candidate
(it cannot raise), a non-numeric selection falls back to the first
candidate, an out-of-range numeric selection falls back to the first
candidate, and the index-based variant of main.py behaves the same on
an out-of-range index. -/
theorem menu_selection_falls_back_to_first {α : Type} (x : α) (rest : List α)
    (sel : String) (idx : Int) :
    (∃ y, selectCandidate (x :: rest) sel = some y) ∧
    (pythonParseInt sel = none → selectCandidate (x :: rest) sel = some x) ∧
    (∀ n, pythonParseInt sel = some n →
      (n - 1 < 0 ∨ ((x :: rest).length : Int) ≤ n - 1) →
      selectCandidate (x :: rest) sel = some x) ∧
    ((idx < 0 ∨ ((x :: rest).length : Int) ≤ idx) →
      mainHandleTalkChoose (x :: rest) idx = some x) := by
  refine ⟨?_, ?_, ?_, ?_⟩
  · cases hp : pythonParseInt sel with
    | none => exact ⟨x, by simp [selectCandidate, hp]⟩
    | some n =>
      by_cases hr : 0 ≤ n - 1 ∧ n - 1 < ((x :: rest).length : Int)
      · have hlt : (n - 1).toNat < (x :: rest).length := by omega
        refine ⟨(x :: rest).get ⟨(n - 1).toNat, hlt⟩, ?_⟩
        simp only [selectCandidate, hp]
        rw [if_pos hr]
        exact List.get?_eq_get hlt
      · refine ⟨x, ?_⟩
        simp only [selectCandidate, hp]
        rw [if_neg hr]
        rfl
  · intro hp
    simp [selectCandidate, hp]
  · intro n hp hout
    have hnr : ¬(0 ≤ n - 1 ∧ n - 1 < ((x :: rest).length : Int)) := by omega
    simp only [selectCandidate, hp]
    rw [if_neg hnr]
    rfl
  · intro hout
    have hnr : ¬(0 ≤ idx ∧ idx < ((x :: rest).length : Int)) := by omega
    simp only [mainHandleTalkChoose]
    rw [if_neg hnr]
    rfl

/-- C5 witness: menu of two entries; the non-numeric selection `abc`,
the out-of-range selection 7 and the out-of-range index 5 all pick the
first entry, and selection cannot fail. -/
theorem menu_selection_falls_back_to_first_witness :
    (∃ y, selectCandidate ["a", "b"] "abc" = some y) ∧
    selectCandidate ["a", "b"] "abc" = some "a" ∧
    selectCandidate ["a", "b"] "7" = some "a" ∧
    mainHandleTalkChoose ["a", "b"] 5 = some "a" :=
  ⟨(menu_selection_falls_back_to_first "a" ["b"] "abc" 5).1,
   (menu_selection_falls_back_to_first "a" ["b"] "abc" 5).2.1 (by decide),
   (menu_selection_falls_back_to_first "a" ["b"] "7" 5).2.2.1 7 (by decide)
     (Or.inr (by decide)),
   (menu_selection_falls_back_to_first "a" ["b"] "abc" 5).2.2.2
     (Or.inr (by decide))⟩

/-- No location dict matches when every entry is a dict with a `name`
value different from the target. -/
theorem findLocationByName_no_match (nm : String) :
    ∀ locs : List Json,
    (∀ j ∈ locs, ∃ d, j = Json.obj d ∧
      ∃ v, jLookup d "name" = some v ∧ jsonEqStr v nm = false) →
    findLocationByName locs nm = .ok none := by
  intro locs
  induction locs with
  | nil => intro _; rfl
  | cons loc rest ih =>
    intro h
    obtain ⟨d, rfl, v, hv, hne⟩ := h loc (List.mem_cons_self _ _)
    simp only [findLocationByName, hv, hne, Bool.false_eq_true, if_false]
    exact ih (fun j hj => h j (List.mem_cons_of_mem _ hj))

/-- C9: `update_game_state` with a destination name that matches no
location leaves `current_location` untouched, raises nothing, and
still folds the (non-empty) event into the summary. -/
theorem update_game_state_unknown_location
    (st : GState) (nm ev : String) (locs : List Json)
    (hWorld : pyGetD st.world "locations" (.arr []) = .arr locs)
    (hLocs : ∀ j ∈ locs, ∃ d, j = Json.obj d ∧
      ∃ v, jLookup d "name" = some v ∧ jsonEqStr v nm = false)
    (hev : ev ≠ "") :
    update_game_state st (some nm) (some ev) =
      .ok { st with eventSummary := update_event_summary st.eventSummary ev } := by
  unfold update_game_state
  by_cases hnm : nm = ""
  · simp [hnm, hev]
  · simp [hnm, hWorld, jsonAsList, findLocationByName_no_match nm locs hLocs, hev]

/-- C9 witness: moving to the unknown destination `Atlantis` from the
harbor keeps the location and logs the event. -/
theorem update_game_state_unknown_location_witness :
    update_game_state harborState (some "Atlantis") (some "sailed") =
      .ok { harborState with
            eventSummary := update_event_summary harborState.eventSummary "sailed" } := by
  refine update_game_state_unknown_location harborState "Atlantis" "sailed" _ rfl ?_ (by decide)
  intro j hj
  rw [List.mem_singleton] at hj
  subst hj
  exact ⟨_, rfl, _, rfl, rfl⟩

/-- Prompt context building succeeds on a roster of dicts. -/
theorem buildNpcContext_ok :
    ∀ xs : List Json, (∀ j ∈ xs, ∃ d, j = Json.obj d) →
    ∃ out, buildNpcContext xs = .ok out := by
  intro xs
  induction xs with
  | nil => exact fun _ => ⟨"", rfl⟩
  | cons npc rest ih =>
    intro h
    obtain ⟨d, rfl⟩ := h npc (List.mem_cons_self _ _)
    obtain ⟨tail, htail⟩ := ih (fun j hj => h j (List.mem_cons_of_mem _ hj))
    cases hline : npcContextLine (Json.obj d) with
    | error e => exact absurd hline (by simp [npcContextLine])
    | ok line => exact ⟨line ++ tail, by simp [buildNpcContext, hline, htail]⟩

/-- With a well-formed NPC roster, the first effect of
`generate_narrative_segment` is the LLM call, so an HTTP failure there
is the whole result. -/
theorem generate_narrative_segment_http_error
    (env : Env) (c : Ctr) (loc : PyDict) (summary : String)
    (player : PlayerCharacter) (playerInput : String) (code : Nat)
    (hNpcs : locationNpcsOk loc = true)
    (hLlm : env.llm c.llmCalls = .error code) :
    generate_narrative_segment env c loc summary player playerInput =
      .error (.http code) := by
  unfold locationNpcsOk at hNpcs
  cases hv : pyGetD loc "npcs" (.arr []) with
  | arr xs =>
    rw [hv] at hNpcs
    have hobj : ∀ j ∈ xs, ∃ d, j = Json.obj d := by
      intro j hj
      have := List.all_eq_true.mp hNpcs j hj
      cases j with
      | obj d => exact ⟨d, rfl⟩
      | null => simp at this
      | bool b => simp at this
      | num n => simp at this
      | str s => simp at this
      | arr l => simp at this
    by_cases hxs : xs.isEmpty
    · simp [generate_narrative_segment, npcsOfLocation, hv, jsonAsList, hxs,
            call_llm, hLlm]
    · obtain ⟨out, hout⟩ := buildNpcContext_ok xs hobj
      simp [generate_narrative_segment, npcsOfLocation, hv, jsonAsList, hxs,
            hout, call_llm, hLlm]
  | null => rw [hv] at hNpcs; simp at hNpcs
  | bool b => rw [hv] at hNpcs; simp at hNpcs
  | num n => rw [hv] at hNpcs; simp at hNpcs
  | str s => rw [hv] at hNpcs; simp at hNpcs
  | obj d => rw [hv] at hNpcs; simp at hNpcs

/-- C2: for an input on the generic narrative path (no talk/move
intent), if the HTTP call behind the initial narrative fails, then
`process_player_input` raises and returns no output, and the session
state - `current_location`, `event_summary` and everything else - is
exactly the state from before the call. -/
theorem process_turn_initial_narrative_http_failure
    (env : Env) (c : Ctr) (st : GState) (playerInput : String) (code : Nat)
    (hTalk : strContains (pyLower playerInput) "talk to" = false)
    (hMove : strContains (pyLower playerInput) "move to" = false)
    (hNpcs : locationNpcsOk st.currentLocation = true)
    (hLlm : env.llm c.llmCalls = .error code) :
    process_player_input env c st playerInput = .error (.http code, st) := by
  have hseg := generate_narrative_segment_http_error env c st.currentLocation
    st.eventSummary st.player playerInput code hNpcs hLlm
  simp [process_player_input, hTalk, hMove, hseg]

/-- C2 witness: a 500-answering endpoint fails the `explore` turn from
the harbor with the session state untouched. -/
theorem process_turn_initial_narrative_http_failure_witness :
    process_player_input envHttp500 ⟨0, 0⟩ harborState "explore" =
      .error (.http 500, harborState) :=
  process_turn_initial_narrative_http_failure envHttp500 ⟨0, 0⟩ harborState
    "explore" 500 (by decide) (by decide) (by decide) rfl

/-- A roster whose names all tokenise passes both matching loops. -/
theorem matchByFirstToken_ok :
    ∀ npcs : List Json,
    (∀ j ∈ npcs, ∃ d s, j = Json.obj d ∧
      (jLookup d "name").getD (.str "") = .str s ∧ pyTokens s ≠ []) →
    ∀ text : String, ∃ l, matchByFirstToken npcs text = .ok l := by
  intro npcs
  induction npcs with
  | nil => exact fun _ text => ⟨[], rfl⟩
  | cons npc rest ih =>
    intro h text
    obtain ⟨d, s, rfl, hname, htok⟩ := h npc (List.mem_cons_self _ _)
    obtain ⟨tail, htail⟩ := ih (fun j hj => h j (List.mem_cons_of_mem _ hj)) text
    cases hpt : pyTokens s with
    | nil => exact absurd hpt htok
    | cons t ts =>
      refine ⟨if strContains text (pyLower t) then Json.obj d :: tail else tail, ?_⟩
      simp [matchByFirstToken, npcFirstToken, hname, hpt, htail]

/-- A roster containing a token-less (but string) name makes the first
matching loop raise `IndexError`, provided all names are strings. -/
theorem matchByFirstToken_index_error :
    ∀ npcs : List Json,
    (∀ j ∈ npcs, ∃ d s, j = Json.obj d ∧ (jLookup d "name").getD (.str "") = .str s) →
    (∃ j ∈ npcs, ∃ d s, j = Json.obj d ∧
      (jLookup d "name").getD (.str "") = .str s ∧ pyTokens s = []) →
    ∀ text : String, matchByFirstToken npcs text = .error .indexError := by
  intro npcs
  induction npcs with
  | nil =>
    intro _ hw text
    obtain ⟨j, hj, _⟩ := hw
    exact absurd hj (List.not_mem_nil j)
  | cons npc rest ih =>
    intro hall hw text
    obtain ⟨d, s, rfl, hname⟩ := hall _ (List.mem_cons_self _ _)
    cases hpt : pyTokens s with
    | nil => simp [matchByFirstToken, npcFirstToken, hname, hpt]
    | cons t ts =>
      have hwrest : ∃ j ∈ rest, ∃ d2 s2, j = Json.obj d2 ∧
          (jLookup d2 "name").getD (.str "") = .str s2 ∧ pyTokens s2 = [] := by
        obtain ⟨j, hj, d2, s2, hj2, hname2, htok2⟩ := hw
        rcases List.mem_cons.mp hj with hj | hj
        · subst hj
          cases hj2
          rw [hname] at hname2
          cases hname2
          rw [hpt] at htok2
          cases htok2
        · exact ⟨j, hj, d2, s2, hj2, hname2, htok2⟩
      have htail := ih (fun j hj => hall j (List.mem_cons_of_mem _ hj)) hwrest text
      simp [matchByFirstToken, npcFirstToken, hname, hpt, htail]

/-- An always-answering endpoint gets every candidate through the
presence filter loop. -/
theorem presenceFilterLoop_ok (env : Env) (narrative : String)
    (hOracle : ∀ i, ∃ r, env.llm i = .ok r) :
    ∀ (xs : List Json) (c : Ctr),
    ∃ l c2, presenceFilterLoop env narrative c xs = .ok (l, c2) := by
  intro xs
  induction xs with
  | nil => exact fun c => ⟨[], c, rfl⟩
  | cons npc rest ih =>
    intro c
    obtain ⟨r, hr⟩ := hOracle c.llmCalls
    obtain ⟨tail, c3, htail⟩ := ih ⟨c.llmCalls + 1, c.userReads⟩
    refine ⟨if strContains (pyLower r) "true" then npc :: tail else tail, c3, ?_⟩
    simp [presenceFilterLoop, call_llm, hr, htail]

/-- C10: with a working endpoint, `determine_active_npcs` returns a
list (never raises) whenever every NPC name is a string with at least
one whitespace-separated token; and the precondition is necessary: a
roster of string-named NPCs containing one token-less name makes the
very first step (`name.split()[0]`) raise `IndexError`, whatever the
narrative, action or endpoint behavior. -/
theorem determine_active_npcs_token_precondition
    (env : Env) (c : Ctr) (npcs : List Json) (narrative playerAction : String) :
    ((∀ i, ∃ r, env.llm i = .ok r) →
     (∀ j ∈ npcs, ∃ d s, j = Json.obj d ∧
       (jLookup d "name").getD (.str "") = .str s ∧ pyTokens s ≠ []) →
     ∃ l c2, determine_active_npcs env c npcs narrative playerAction = .ok (l, c2)) ∧
    ((∀ j ∈ npcs, ∃ d s, j = Json.obj d ∧ (jLookup d "name").getD (.str "") = .str s) →
     (∃ j ∈ npcs, ∃ d s, j = Json.obj d ∧
       (jLookup d "name").getD (.str "") = .str s ∧ pyTokens s = []) →
     determine_active_npcs env c npcs narrative playerAction = .error .indexError) := by
  constructor
  · intro hOracle hNames
    obtain ⟨l1, hl1⟩ := matchByFirstToken_ok npcs hNames (pyLower playerAction)
    by_cases he1 : l1.isEmpty
    · obtain ⟨l2, hl2⟩ := matchByFirstToken_ok npcs hNames (pyLower narrative)
      by_cases he2 : l2.isEmpty
      · obtain ⟨r, hr⟩ := hOracle c.llmCalls
        cases hjs : env.jsonLoads r with
        | none =>
          exact ⟨[], ⟨c.llmCalls + 1, c.userReads⟩,
            by simp [determine_active_npcs, hl1, he1, hl2, he2, call_llm, hr, hjs]⟩
        | some j =>
          cases j with
          | arr xs =>
            exact ⟨xs, ⟨c.llmCalls + 1, c.userReads⟩,
              by simp [determine_active_npcs, hl1, he1, hl2, he2, call_llm, hr, hjs]⟩
          | null =>
            exact ⟨[], ⟨c.llmCalls + 1, c.userReads⟩,
              by simp [determine_active_npcs, hl1, he1, hl2, he2, call_llm, hr, hjs]⟩
          | bool b =>
            exact ⟨[], ⟨c.llmCalls + 1, c.userReads⟩,
              by simp [determine_active_npcs, hl1, he1, hl2, he2, call_llm, hr, hjs]⟩
          | num n =>
            exact ⟨[], ⟨c.llmCalls + 1, c.userReads⟩,
              by simp [determine_active_npcs, hl1, he1, hl2, he2, call_llm, hr, hjs]⟩
          | str s =>
            exact ⟨[], ⟨c.llmCalls + 1, c.userReads⟩,
              by simp [determine_active_npcs, hl1, he1, hl2, he2, call_llm, hr, hjs]⟩
          | obj d =>
            exact ⟨[], ⟨c.llmCalls + 1, c.userReads⟩,
              by simp [determine_active_npcs, hl1, he1, hl2, he2, call_llm, hr, hjs]⟩
      · obtain ⟨f, c2, hf⟩ := presenceFilterLoop_ok env narrative hOracle l2 c
        exact ⟨if f.isEmpty then l2 else f, c2,
          by simp [determine_active_npcs, hl1, he1, hl2, he2, hf]⟩
    · exact ⟨l1, c, by simp [determine_active_npcs, hl1, he1]⟩
  · intro hall hw
    have h1 := matchByFirstToken_index_error npcs hall hw (pyLower playerAction)
    simp [determine_active_npcs, h1]

/-- C10 witness: a two-NPC roster whose second name is whitespace-only
raises, while the well-formed singleton roster returns a list. -/
theorem determine_active_npcs_token_precondition_witness :
    (∃ l c2, determine_active_npcs envAlwaysTrue ⟨0, 0⟩ maraNpcs "calm night"
      "hello Mara" = .ok (l, c2)) ∧
    determine_active_npcs envAlwaysTrue ⟨0, 0⟩ blankNameNpcs "calm night"
      "hello Mara" = .error .indexError :=
  ⟨(determine_active_npcs_token_precondition envAlwaysTrue ⟨0, 0⟩ maraNpcs
      "calm night" "hello Mara").1 (fun _ => ⟨"true", rfl⟩)
      (by
        intro j hj
        simp only [maraNpcs, List.mem_singleton] at hj
        subst hj
        exact ⟨_, "Mara Jade", rfl, rfl, by decide⟩),
   (determine_active_npcs_token_precondition envAlwaysTrue ⟨0, 0⟩ blankNameNpcs
      "calm night" "hello Mara").2
      (by
        intro j hj
        simp only [blankNameNpcs, List.mem_cons, List.mem_singleton] at hj
        rcases hj with hj | hj | hj
        · subst hj; exact ⟨_, "Mara Jade", rfl, rfl⟩
        · subst hj; exact ⟨_, "   ", rfl, rfl⟩
        · exact absurd hj (List.not_mem_nil j))
      ⟨Json.obj [("name", Json.str "   ")],
        by simp [blankNameNpcs], _, "   ", rfl, rfl, by decide⟩⟩
